import Mathlib

/-!
Shallow embedding of the `customer_api` Odoo module
(`customer_api/controllers/api_controller.py`).

The controllers are pure request → response transformations over an
external store.  We embed the mutable store rows (partners, users, sale
orders, order lines) as an explicit `DB` state threaded through each
handler, and the read-only / ambient collaborators (product catalog,
categories, session authenticator, public user id, base URL) as an `Env`.
Request payloads are JSON dictionaries whose fields hold JSON values;
Python truthiness and the `int()` / `float()` / `.strip().lower()`
coercions used by the controllers are modelled explicitly.

Quantities and prices (`float` in the source) are modelled as rationals:
every claim under study is structural (line counts, increments, flags)
and does not hinge on binary rounding.
-/

namespace CustomerAPI

/-- A JSON value as it arrives in a request payload. -/
inductive JVal where
  | jnull
  | jbool (b : Bool)
  | jnum (q : Rat)
  | jstr (s : String)
deriving DecidableEq, Repr

/-- Python truthiness of a JSON value (`None`, `False`, `0`, `""` are falsy). -/
def pyTruthy : JVal → Bool
  | .jnull => false
  | .jbool b => b
  | .jnum q => q != 0
  | .jstr s => s != ""

/-- Python `.strip()`: drop leading and trailing whitespace.  (Defined
over the character list so that it reduces in the kernel.) -/
def pyStrip (s : String) : String :=
  ⟨((s.data.dropWhile Char.isWhitespace).reverse.dropWhile Char.isWhitespace).reverse⟩

/-- Python `.lower()` (ASCII).  (Defined over the character list so that
it reduces in the kernel.) -/
def pyLower (s : String) : String :=
  ⟨s.data.map Char.toLower⟩

/-- Truncation toward zero, the behaviour of Python `int()` on a float. -/
def pyTrunc (q : Rat) : Int := q.num.tdiv q.den

/-- Parse a nonempty all-digit character list as a natural number. -/
def parseDigits (cs : List Char) : Option Nat :=
  if cs.isEmpty then none
  else if cs.all Char.isDigit then
    some (cs.foldl (fun n c => n * 10 + (c.toNat - 48)) 0)
  else none

/-- Python `int(s)` on a string: strip whitespace, optional sign, digits. -/
def pyParseIntStr (s : String) : Option Int :=
  match (pyStrip s).data with
  | '-' :: rest => (parseDigits rest).map (fun n => -(n : Int))
  | '+' :: rest => (parseDigits rest).map (fun n => (n : Int))
  | cs => (parseDigits cs).map (fun n => (n : Int))

/-- Python `float(s)` on a string: optional sign, digits with at most one
decimal point.  (Exotic forms such as `inf`/`nan`/exponents are not needed
by any claim and are rejected.) -/
def pyParseFloatStr (s : String) : Option Rat :=
  let core : List Char → Option Rat := fun cs =>
    match cs.splitOn '.' with
    | [intPart] => (parseDigits intPart).map (fun n => (n : Rat))
    | [intPart, fracPart] =>
      if intPart.isEmpty ∧ fracPart.isEmpty then none
      else
        let ip := if intPart.isEmpty then some 0 else parseDigits intPart
        let fp := if fracPart.isEmpty then some 0 else parseDigits fracPart
        match ip, fp with
        | some i, some f => some ((i : Rat) + (f : Rat) / ((10 : Rat) ^ fracPart.length))
        | _, _ => none
    | _ => none
  match (pyStrip s).data with
  | '-' :: rest => (core rest).map (fun q => -q)
  | '+' :: rest => core rest
  | cs => core cs

/-- Python `int(v)` on a JSON value; `none` models a raised
`ValueError`/`TypeError`. -/
def pyInt : JVal → Option Int
  | .jnull => none
  | .jbool b => some (if b then 1 else 0)
  | .jnum q => some (pyTrunc q)
  | .jstr s => pyParseIntStr s

/-- Python `float(v)` on a JSON value; `none` models a raised
`ValueError`/`TypeError`. -/
def pyFloat : JVal → Option Rat
  | .jnull => none
  | .jbool b => some (if b then 1 else 0)
  | .jnum q => some q
  | .jstr s => pyParseFloatStr s

/-- Extract a Python string; `none` models the `AttributeError` raised by
calling `.strip()` on a non-string, which the handlers catch as an
internal error. -/
def pyStr : JVal → Option String
  | .jstr s => some s
  | _ => none

/-! ## Store rows -/

/-- A `res.partner` row as touched by the controllers. -/
structure Partner where
  id : Nat
  name : String
  email : String
  phone : String
  is_company : Bool
deriving DecidableEq, Repr

/-- A `res.users` row as touched by the controllers; the two booleans
record membership of `base.group_portal` / `base.group_user`. -/
structure User where
  id : Nat
  name : String
  login : String
  email : String
  partner_id : Nat
  has_portal : Bool
  has_internal : Bool
  password : JVal
deriving DecidableEq, Repr

/-- A `product.product` row as read by the controllers.  `qty_available`
is `none` when the stock subsystem is absent (the source swallows that
failure to `0`). -/
structure Product where
  id : Nat
  name : String
  description : String
  description_sale : String
  list_price : Rat
  categ_id : Option Nat
  default_code : String
  qty_available : Option Rat
  sale_ok : Bool
  active : Bool
  image_1920 : Bool
  currency : Option String
  uom : String
deriving DecidableEq, Repr

/-- A `product.category` row. -/
structure Category where
  id : Nat
  name : String
  parent_id : Option Nat
  parent_name : Option String
  complete_name : String
deriving DecidableEq, Repr

/-- A `sale.order` row (`state = "draft"` is a cart).  `write_date` is a
logical modification timestamp. -/
structure SaleOrder where
  id : Nat
  name : String
  partner_id : Nat
  state : String
  write_date : Nat
  amount_untaxed : Rat
  amount_tax : Rat
  amount_total : Rat
deriving DecidableEq, Repr

/-- A `sale.order.line` row.  `product_id` keeps the exact integer the
handler parsed from the request. -/
structure OrderLine where
  id : Nat
  order_id : Nat
  product_id : Int
  product_uom_qty : Rat
  price_unit : Rat
deriving DecidableEq, Repr

/-- The mutable external store.  `next_id` is the id sequence; `now` is a
logical clock stamped into `write_date` on creation. -/
structure DB where
  partners : List Partner
  users : List User
  orders : List SaleOrder
  lines : List OrderLine
  next_id : Nat
  now : Nat
deriving DecidableEq, Repr

/-- Outcome of `request.session.authenticate`: an exception, a falsy
result, or a user id. -/
inductive AuthOutcome where
  | exn
  | failed
  | ok (uid : Nat)
deriving DecidableEq, Repr

/-- Read-only / ambient collaborators: the product catalog, categories,
the session authenticator, the public user's id, and the values the
framework supplies for the response (base URL, session id, the freshly
generated random token). -/
structure Env where
  products : List Product
  categories : List Category
  company_currency : String
  base_url : String
  public_uid : Nat
  token : String
  session_id : String
  authenticate : String → JVal → AuthOutcome

/-- The request session: `request.uid`, absent when unauthenticated. -/
structure Session where
  uid : Option Nat
deriving DecidableEq, Repr

/-! ## Row lookups (`browse` / `search` with `limit=1`) -/

def findUser (db : DB) (uid : Nat) : Option User :=
  db.users.find? (fun u => u.id == uid)

def findPartnerById (db : DB) (pid : Nat) : Option Partner :=
  db.partners.find? (fun p => p.id == pid)

def findProduct (env : Env) (pid : Int) : Option Product :=
  env.products.find? (fun p => (p.id : Int) == pid)

/-! ## Request payloads

Each payload is the JSON dictionary of the request; an absent key is
`none` (Python `data.get(k)` then yields `None`). -/

structure CreatePayload where
  name : Option JVal
  email : Option JVal
  phone : Option JVal
  password : Option JVal
deriving DecidableEq, Repr

structure LoginPayload where
  email : Option JVal
  password : Option JVal
deriving DecidableEq, Repr

structure ProductsPayload where
  limit : Option JVal
  offset : Option JVal
  category_id : Option JVal
  search : Option JVal
deriving DecidableEq, Repr

structure AddPayload where
  product_id : Option JVal
  quantity : Option JVal
deriving DecidableEq, Repr

/-! ## Responses

One inductive per endpoint: `err m` is the `{'status': 'error',
'message': m}` body, the other constructors carry the success fields. -/

inductive CreateResp where
  | err (message : String)
  | ok (customer_id : Nat) (user_id : Nat) (email : String)
deriving DecidableEq, Repr

inductive LoginResp where
  | err (message : String)
  | ok (user_id : Nat) (customer_id : Nat) (customer_name : String)
       (customer_email : String) (session_token : String) (session_id : String)
deriving DecidableEq, Repr

/-- One entry of the `products` array of `/api/products`. -/
structure ProductData where
  id : Nat
  name : String
  description : String
  price : Rat
  currency : String
  category : String
  category_id : Option Nat
  available_qty : Rat
  image_url : Option String
  uom : String
  sku : String
  is_available : Bool
deriving DecidableEq, Repr

inductive ProductsResp where
  | err (message : String)
  | ok (products : List ProductData) (total_count : Nat)
       (limit : Int) (offset : Int) (has_more : Bool)
deriving DecidableEq, Repr

inductive AddResp where
  | err (message : String)
  | ok (cart_id : Nat) (cart_total : Rat) (cart_items_count : Nat) (product_name : String)
deriving DecidableEq, Repr

/-- One entry of the cart's `lines` array in `/api/cart/view`. -/
structure LineData where
  id : Nat
  product_id : Int
  product_name : String
  product_sku : String
  quantity : Rat
  price_unit : Rat
  price_subtotal : Rat
  price_total : Rat
  image_url : Option String
deriving DecidableEq, Repr

/-- The `cart` object of `/api/cart/view`. -/
structure CartData where
  id : Nat
  name : String
  lines : List LineData
  subtotal : Rat
  tax_amount : Rat
  total : Rat
  currency : String
  items_count : Nat
  partner_name : String
deriving DecidableEq, Repr

inductive ViewResp where
  | err (message : String)
  | okEmpty                      -- `{'status': 'success', 'cart': None, 'message': 'Cart is empty'}`
  | okCart (cart : CartData)
deriving DecidableEq, Repr

/-- `status` of an `AddResp`, as carried by the JSON body. -/
def AddResp.status : AddResp → String
  | .err _ => "error"
  | .ok _ _ _ _ => "success"

/-- `status` of a `ViewResp`. -/
def ViewResp.status : ViewResp → String
  | .err _ => "error"
  | _ => "success"

/-- `status` of a `CreateResp`. -/
def CreateResp.status : CreateResp → String
  | .err _ => "error"
  | .ok _ _ _ => "success"

/-- `status` of a `LoginResp`. -/
def LoginResp.status : LoginResp → String
  | .err _ => "error"
  | .ok _ _ _ _ _ _ => "success"

/-- `status` of a `ProductsResp`. -/
def ProductsResp.status : ProductsResp → String
  | .err _ => "error"
  | .ok _ _ _ _ _ => "success"

/-! ## `POST /api/customer/create` — `CustomerAPIController.create_customer` -/

/-- `create_customer`: required-field loop over `name`, `email`,
`password`; email normalisation (`strip().lower()`) and `'@'` check;
duplicate checks against `res.partner` (by email, non-company) and
`res.users` (by login); then creation of the partner and the linked user.
`.strip()` on a non-string value raises `AttributeError`, caught by the
handler's catch-all as `'Internal server error'`. -/
def create_customer (data : CreatePayload) (db : DB) : CreateResp × DB :=
  if ¬ pyTruthy (data.name.getD .jnull) then
    (.err "Missing required field: name", db)
  else if ¬ pyTruthy (data.email.getD .jnull) then
    (.err "Missing required field: email", db)
  else if ¬ pyTruthy (data.password.getD .jnull) then
    (.err "Missing required field: password", db)
  else
    match pyStr (data.email.getD .jnull) with
    | none => (.err "Internal server error", db)
    | some es =>
      let email := pyLower (pyStrip es)
      if email = "" ∨ ¬ email.data.contains '@' then
        (.err "Invalid email format", db)
      else if (db.partners.find? (fun p => p.email == email && !p.is_company)).isSome then
        (.err "Email already exists", db)
      else if (db.users.find? (fun u => u.login == email)).isSome then
        (.err "User with this email already exists", db)
      else
        match pyStr (data.name.getD .jnull), pyStr (data.phone.getD (.jstr "")) with
        | some ns, some ph =>
          let partner : Partner :=
            { id := db.next_id, name := pyStrip ns, email := email,
              phone := pyStrip ph, is_company := false }
          let db1 : DB :=
            { db with partners := db.partners ++ [partner],
                      next_id := db.next_id + 1, now := db.now + 1 }
          let user : User :=
            { id := db1.next_id, name := pyStrip ns, login := email, email := email,
              partner_id := partner.id, has_portal := true, has_internal := false,
              password := data.password.getD .jnull }
          let db2 : DB :=
            { db1 with users := db1.users ++ [user],
                       next_id := db1.next_id + 1, now := db1.now + 1 }
          (.ok partner.id user.id email, db2)
        | _, _ => (.err "Internal server error", db)

/-! ## `POST /api/customer/login` — `CustomerAPIController.customer_login` -/

/-- `customer_login`: both fields required (one message); email
normalisation; delegation to the session authenticator where both an
exception and a falsy result yield the same `'Invalid email or password'`
error; then the portal/internal group gate and the success payload
(the random `session_token` is supplied by `Env`).  The handler never
writes the store, so only the response is returned. -/
def customer_login (env : Env) (data : LoginPayload) (db : DB) : LoginResp :=
  if ¬ pyTruthy (data.email.getD .jnull) ∨ ¬ pyTruthy (data.password.getD .jnull) then
    .err "Email and password are required"
  else
    match pyStr (data.email.getD .jnull) with
    | none => .err "Login failed"
    | some es =>
      let email := pyLower (pyStrip es)
      match env.authenticate email (data.password.getD .jnull) with
      | .exn => .err "Invalid email or password"
      | .failed => .err "Invalid email or password"
      | .ok uid =>
        match findUser db uid with
        | none => .err "Access denied"
        | some u =>
          if ¬ u.has_portal ∧ ¬ u.has_internal then .err "Access denied"
          else
            match findPartnerById db u.partner_id with
            | none => .err "Login failed"
            | some partner =>
              .ok uid partner.id partner.name partner.email env.token env.session_id

/-! ## `POST /api/products` — `ProductAPIController.list_products` -/

/-- Case-insensitive substring match, the `ilike` operator of the store. -/
def ilike (field term : String) : Bool :=
  decide (List.IsInfix term.toLower.data field.toLower.data)

/-- The conjunctive search domain: `sale_ok AND active`, plus an equality
filter on the category when requested, plus `name ilike term OR
default_code ilike term` when a search term was given. -/
def productDomain (cat : Option Int) (srch : Option String) (p : Product) : Bool :=
  p.sale_ok && p.active
    && (match cat with
        | none => true
        | some cid => match p.categ_id with
          | some c => (c : Int) == cid
          | none => false)
    && (match srch with
        | none => true
        | some t => ilike p.name t || ilike p.default_code t)

/-- Insert into a name-sorted product list, keeping earlier elements first
among equal names. -/
def insertByName (p : Product) : List Product → List Product
  | [] => [p]
  | q :: rest =>
    if decide (p.name ≤ q.name) then p :: q :: rest else q :: insertByName p rest

/-- The store's `order='name asc'`: a stable sort by product name. -/
def sortByName : List Product → List Product
  | [] => []
  | p :: rest => insertByName p (sortByName rest)

/-- Name of a category id, `''` when the reference is dangling. -/
def categName (env : Env) (cid : Nat) : String :=
  ((env.categories.find? (fun c => c.id == cid)).map (fun c => c.name)).getD ""

/-- The `/web/image/...` URL the handlers interpolate, `none` when the
product has no image. -/
def imageUrl (env : Env) (p : Product) : Option String :=
  if p.image_1920 then
    some (env.base_url ++ "/web/image/product.product/" ++ toString p.id ++ "/image_1920")
  else none

/-- One `product_data` dictionary of `list_products`. -/
def formatProduct (env : Env) (p : Product) : ProductData :=
  { id := p.id
    name := p.name
    description := if p.description_sale != "" then p.description_sale
                   else if p.description != "" then p.description else ""
    price := p.list_price
    currency := p.currency.getD env.company_currency
    category := match p.categ_id with
      | some cid => categName env cid
      | none => ""
    category_id := p.categ_id
    available_qty := p.qty_available.getD 0
    image_url := imageUrl env p
    uom := p.uom
    sku := p.default_code
    is_available := p.sale_ok && p.active }

/-- The `category_id` step: `some cat` on success (`cat = none` when no
filter was requested), `none` when `int()` raised. -/
def parsedCategory (data : ProductsPayload) : Option (Option Int) :=
  if pyTruthy (data.category_id.getD .jnull) then
    (pyInt (data.category_id.getD .jnull)).map some
  else some none

/-- The `search` step: `some srch` on success (`srch = none` when no
nonempty term was given), `none` when `.strip()` raised. -/
def parsedSearch (data : ProductsPayload) : Option (Option String) :=
  if pyTruthy (data.search.getD .jnull) then
    match pyStr (data.search.getD .jnull) with
    | none => none
    | some s => some (if pyStrip s != "" then some (pyStrip s) else none)
  else some none

/-- `list_products`: category filter, search filter, limit clamped to at
most `100` (default `20`), offset clamped to at least `0` (default `0`),
page query ordered by name, independent total count, and
`has_more = (offset + limit) < total_count`.  A negative effective limit
reaches the external store as a negative SQL `LIMIT`, which raises and is
caught by the handler's catch-all. -/
def list_products (env : Env) (data : ProductsPayload) : ProductsResp :=
  match parsedCategory data with
  | none => .err "Invalid category_id format"
  | some cat =>
    match parsedSearch data with
    | none => .err "Failed to retrieve products"
    | some srch =>
      match pyInt (data.limit.getD (.jnum 20)), pyInt (data.offset.getD (.jnum 0)) with
      | some l0, some o0 =>
        let limit := min l0 100
        let offset := max o0 0
        if limit < 0 then .err "Failed to retrieve products"
        else
          let matching := env.products.filter (productDomain cat srch)
          let page := ((sortByName matching).drop offset.toNat).take limit.toNat
          let total_count := matching.length
          .ok (page.map (formatProduct env)) total_count limit offset
            (decide ((offset + limit) < (total_count : Int)))
      | _, _ => .err "Invalid limit or offset format"

/-! ## `POST /api/cart/*` — `CartAPIController` -/

/-- `_authenticate_session`: a uid must be present and differ from the
public (anonymous) user's id. -/
def authenticate_session (env : Env) (sess : Session) : Bool :=
  match sess.uid with
  | none => false
  | some u => u != env.public_uid

/-- The draft (`cart`) orders of a partner, in store order. -/
def draftOrdersOf (db : DB) (partner_id : Nat) : List SaleOrder :=
  db.orders.filter (fun o => o.partner_id == partner_id && o.state == "draft")

/-- `search(..., limit=1, order='write_date desc')`: the first element of
maximal `write_date` (earlier rows win ties). -/
def pickLatest : List SaleOrder → Option SaleOrder
  | [] => none
  | o :: rest =>
    match pickLatest rest with
    | none => some o
    | some c => if c.write_date > o.write_date then some c else some o

/-- The draft order the cart search resolves to, if any. -/
def searchDraftCart (db : DB) (partner_id : Nat) : Option SaleOrder :=
  pickLatest (draftOrdersOf db partner_id)

/-- `_get_or_create_cart`: select the most-recently-modified draft order
of the partner, or create a fresh one.  The created row is stamped with
the logical clock as its `write_date`; its name is assigned by the
external sequence (modelled as `"SO" ++ id`). -/
def get_or_create_cart (db : DB) (partner_id : Nat) : SaleOrder × DB :=
  match searchDraftCart db partner_id with
  | some cart => (cart, db)
  | none =>
    let cart : SaleOrder :=
      { id := db.next_id, name := "SO" ++ toString db.next_id,
        partner_id := partner_id, state := "draft", write_date := db.now,
        amount_untaxed := 0, amount_tax := 0, amount_total := 0 }
    (cart, { db with orders := db.orders ++ [cart],
                     next_id := db.next_id + 1, now := db.now + 1 })

/-- `cart.order_line`: the line rows of an order, in store order. -/
def orderLinesOf (db : DB) (oid : Nat) : List OrderLine :=
  db.lines.filter (fun l => l.order_id == oid)

/-- Modelled from the spec: `_amount_all`, the external store's
total-recomputation routine (§4.4 step 4 — "subtotal, tax, total ...
delegated entirely to the external store").  With no taxes modelled the
tax amount is `0` and both totals equal the sum of `qty × unit price`
over the order's lines. -/
def amount_all (db : DB) (oid : Nat) : DB :=
  let subtotal := ((orderLinesOf db oid).map (fun l => l.product_uom_qty * l.price_unit)).sum
  { db with orders := db.orders.map (fun o =>
      if o.id == oid then
        { o with amount_untaxed := subtotal, amount_tax := 0, amount_total := subtotal }
      else o) }

/-- `add_to_cart`: authentication gate, payload validation, product
availability check, cart resolution, upsert of the order line (increment
the existing line's quantity, else create a line priced from the product
at insertion time — the external line-creation computes `price_unit`
from the product's current price), then total recomputation. -/
def add_to_cart (env : Env) (sess : Session) (data : AddPayload) (db : DB) : AddResp × DB :=
  if ¬ authenticate_session env sess then (.err "Authentication required", db)
  else if ¬ pyTruthy (data.product_id.getD .jnull) then (.err "Product ID is required", db)
  else
    match pyInt (data.product_id.getD .jnull), pyFloat (data.quantity.getD (.jnum 1)) with
    | some product_id, some quantity =>
      if quantity ≤ 0 then (.err "Quantity must be greater than 0", db)
      else
        match sess.uid with
        | none => (.err "Failed to add product to cart", db)
        | some uid =>
          match findUser db uid with
          | none => (.err "Failed to add product to cart", db)
          | some user =>
            match findProduct env product_id with
            | none => (.err "Product not found or not available for sale", db)
            | some product =>
              if ¬ (product.sale_ok && product.active) then
                (.err "Product not found or not available for sale", db)
              else
                let gc := get_or_create_cart db user.partner_id
                let cart := gc.1
                let db1 := gc.2
                let existing_line :=
                  (orderLinesOf db1 cart.id).filter (fun l => l.product_id == product_id)
                let db2 :=
                  match existing_line with
                  | [] =>
                    let line : OrderLine :=
                      { id := db1.next_id, order_id := cart.id, product_id := product_id,
                        product_uom_qty := quantity, price_unit := product.list_price }
                    { db1 with lines := db1.lines ++ [line],
                               next_id := db1.next_id + 1, now := db1.now + 1 }
                  | l0 :: _ =>
                    { db1 with lines := db1.lines.map (fun l =>
                        if l.id == l0.id then
                          { l with product_uom_qty := l.product_uom_qty + quantity }
                        else l) }
                let db3 := amount_all db2 cart.id
                match db3.orders.find? (fun o => o.id == cart.id) with
                | some cart2 =>
                  (.ok cart.id cart2.amount_total (orderLinesOf db3 cart.id).length product.name, db3)
                | none => (.err "Failed to add product to cart", db3)
    | _, _ => (.err "Invalid product_id or quantity format", db)

/-- One `line_data` dictionary of `view_cart`.  The stored
subtotal/total of a line are computed by the external pricing engine;
with no taxes modelled both equal `qty × unit price`. -/
def formatLine (env : Env) (l : OrderLine) : LineData :=
  { id := l.id
    product_id := l.product_id
    product_name := ((findProduct env l.product_id).map (fun p => p.name)).getD ""
    product_sku := ((findProduct env l.product_id).map (fun p => p.default_code)).getD ""
    quantity := l.product_uom_qty
    price_unit := l.price_unit
    price_subtotal := l.product_uom_qty * l.price_unit
    price_total := l.product_uom_qty * l.price_unit
    image_url := ((findProduct env l.product_id).map (imageUrl env)).getD none }

/-- `view_cart`: authentication gate, then the same draft-order search as
the cart resolution — but with no creation: a missing cart is reported as
`status='success'` with `cart=None`.  The handler only reads the store,
so every branch returns the state unchanged. -/
def view_cart (env : Env) (sess : Session) (db : DB) : ViewResp × DB :=
  if ¬ authenticate_session env sess then (.err "Authentication required", db)
  else
    match sess.uid with
    | none => (.err "Failed to retrieve cart", db)
    | some uid =>
      match findUser db uid with
      | none => (.err "Failed to retrieve cart", db)
      | some user =>
        match searchDraftCart db user.partner_id with
        | none => (.okEmpty, db)
        | some cart =>
          let cart_data : CartData :=
            { id := cart.id
              name := cart.name
              lines := (orderLinesOf db cart.id).map (formatLine env)
              subtotal := cart.amount_untaxed
              tax_amount := cart.amount_tax
              total := cart.amount_total
              currency := env.company_currency
              items_count := (orderLinesOf db cart.id).length
              partner_name := ((findPartnerById db user.partner_id).map (fun p => p.name)).getD "" }
          (.okCart cart_data, db)

/-! ## Invariants and fixtures used by the verification -/

/-- No two distinct line rows share an order and a product: "at most one
line per distinct product within a given cart". -/
def LinesInv (ls : List OrderLine) : Prop :=
  List.Pairwise (fun a b => ¬ (a.order_id = b.order_id ∧ a.product_id = b.product_id)) ls

instance : DecidablePred LinesInv := fun ls =>
  List.instDecidablePairwise ls

/-- The cart invariant on a store state. -/
def CartInv (db : DB) : Prop := LinesInv db.lines

instance : DecidablePred CartInv := fun db =>
  inferInstanceAs (Decidable (LinesInv db.lines))

/-- State reached after a sequence of `add_to_cart` requests. -/
def runAddSeq (env : Env) (reqs : List (Session × AddPayload)) (db : DB) : DB :=
  reqs.foldl (fun s r => (add_to_cart env r.1 r.2 s).2) db

/-- Fixture: a sellable, active product with id 1 and the given price. -/
def widget (price : Rat) : Product :=
  { id := 1, name := "Widget", description := "", description_sale := "",
    list_price := price, categ_id := none, default_code := "W1",
    qty_available := none, sale_ok := true, active := true,
    image_1920 := false, currency := none, uom := "Unit" }

/-- Fixture: an environment whose catalog is just `widget price`. -/
def cartEnv (price : Rat) : Env :=
  { products := [widget price], categories := [], company_currency := "USD",
    base_url := "http://shop.example", public_uid := 4, token := "tok",
    session_id := "sid", authenticate := fun _ _ => .failed }

/-- Fixture: a store with one customer (partner 7, user 5) and no cart. -/
def cartDB : DB :=
  { partners := [{ id := 7, name := "Alice", email := "a@b.com", phone := "",
                   is_company := false }],
    users := [{ id := 5, name := "Alice", login := "a@b.com", email := "a@b.com",
                partner_id := 7, has_portal := true, has_internal := false,
                password := .jnull }],
    orders := [], lines := [], next_id := 100, now := 0 }

/-- Fixture: the session of user 5. -/
def cartSess : Session := { uid := some 5 }

/-- Fixture: an `add_to_cart` payload for product 1 with quantity `q`. -/
def addPayloadOf (q : Rat) : AddPayload :=
  { product_id := some (.jnum 1), quantity := some (.jnum q) }

/-- Fixture: a store with no rows at all. -/
def emptyDB : DB :=
  { partners := [], users := [], orders := [], lines := [], next_id := 1, now := 0 }

/-- Fixture: a valid registration payload. -/
def regPayload : CreatePayload :=
  { name := some (.jstr "Bob"), email := some (.jstr "Bob@C.com"),
    phone := none, password := some (.jstr "pw") }

/-- Fixture: a store holding only a user account whose login is
`bob@c.com`, with no matching partner. -/
def soloUserDB : DB :=
  { partners := [],
    users := [{ id := 9, name := "Bob", login := "bob@c.com", email := "bob@c.com",
                partner_id := 3, has_portal := true, has_internal := false,
                password := .jnull }],
    orders := [], lines := [], next_id := 10, now := 0 }


/-! ## Supporting lemmas -/

set_option maxHeartbeats 1000000

theorem pyTruthy_jstr_empty : pyTruthy (.jstr "") = false := rfl

theorem pyFloat_jnum (q : Rat) : pyFloat (.jnum q) = some q := rfl

theorem pyInt_jnum_one : pyInt (.jnum 1) = some 1 := by decide

theorem pyTruthy_jnum_one : pyTruthy (.jnum 1) = true := by decide

theorem pickLatest_eq_none_iff (l : List SaleOrder) : pickLatest l = none ↔ l = [] := by
  cases l with
  | nil => simp [pickLatest]
  | cons o rest =>
    simp only [pickLatest]
    rcases hr : pickLatest rest with _ | d
    · simp
    · simp only []
      constructor
      · intro h
        split at h <;> simp at h
      · intro h
        simp at h

theorem pickLatest_mem {l : List SaleOrder} {c : SaleOrder} (h : pickLatest l = some c) :
    c ∈ l := by
  induction l with
  | nil => simp [pickLatest] at h
  | cons o rest ih =>
    simp only [pickLatest] at h
    rcases hr : pickLatest rest with _ | d
    · simp only [hr] at h
      simp at h
      simp [h]
    · simp only [hr] at h
      split at h
      · simp at h
        subst h
        exact List.mem_cons_of_mem _ (ih hr)
      · simp at h
        simp [h]

theorem pickLatest_maximal {l : List SaleOrder} {c : SaleOrder} (h : pickLatest l = some c) :
    ∀ o ∈ l, o.write_date ≤ c.write_date := by
  induction l generalizing c with
  | nil => simp
  | cons a rest ih =>
    simp only [pickLatest] at h
    rcases hr : pickLatest rest with _ | d
    · simp only [hr] at h
      simp at h
      rw [pickLatest_eq_none_iff] at hr
      subst hr
      simp [h]
    · simp only [hr] at h
      split at h
      · next hd =>
        simp at h
        subst h
        intro o ho
        rcases List.mem_cons.mp ho with rfl | ho
        · exact le_of_lt hd
        · exact ih hr o ho
      · next hd =>
        simp at h
        subst h
        intro o ho
        rcases List.mem_cons.mp ho with rfl | ho
        · exact le_refl _
        · exact le_trans (ih hr o ho) (not_lt.mp hd)

theorem amount_all_lines (db : DB) (oid : Nat) : (amount_all db oid).lines = db.lines := rfl

theorem get_or_create_cart_snd_lines (db : DB) (p : Nat) :
    (get_or_create_cart db p).2.lines = db.lines := by
  rcases hsc : searchDraftCart db p with _ | c <;> simp [get_or_create_cart, hsc]

theorem of_filters_empty {α : Type} {ls : List α} {f g : α → Bool}
    (h : (ls.filter f).filter g = []) : ∀ l ∈ ls, ¬(f l = true ∧ g l = true) := by
  rintro l hl ⟨hf, hg⟩
  have h1 : l ∈ ls.filter f := List.mem_filter.mpr ⟨hl, hf⟩
  have h2 : l ∈ (ls.filter f).filter g := List.mem_filter.mpr ⟨h1, hg⟩
  rw [h] at h2
  simp at h2

theorem LinesInv_map_update (ls : List OrderLine) (tid : Nat) (q : Rat) (h : LinesInv ls) :
    LinesInv (ls.map (fun l =>
      if l.id == tid then { l with product_uom_qty := l.product_uom_qty + q } else l)) := by
  unfold LinesInv at h ⊢
  rw [List.pairwise_map]
  refine h.imp ?_
  intro a b hab
  have ha : ∀ l : OrderLine,
      ((if l.id == tid then { l with product_uom_qty := l.product_uom_qty + q } else l) :
        OrderLine).order_id = l.order_id := by
    intro l; split <;> rfl
  have hb : ∀ l : OrderLine,
      ((if l.id == tid then { l with product_uom_qty := l.product_uom_qty + q } else l) :
        OrderLine).product_id = l.product_id := by
    intro l; split <;> rfl
  rw [ha a, ha b, hb a, hb b]
  exact hab

theorem LinesInv_append_new (ls : List OrderLine) (nl : OrderLine) (h : LinesInv ls)
    (hno : ∀ l ∈ ls, ¬(l.order_id = nl.order_id ∧ l.product_id = nl.product_id)) :
    LinesInv (ls ++ [nl]) := by
  unfold LinesInv at h ⊢
  rw [List.pairwise_append]
  refine ⟨h, List.pairwise_singleton _ _, ?_⟩
  intro a ha b hb
  simp only [List.mem_singleton] at hb
  subst hb
  exact hno a ha

theorem add_to_cart_cartInv (env : Env) (sess : Session) (data : AddPayload) (db : DB)
    (h : CartInv db) : CartInv (add_to_cart env sess data db).2 := by
  simp only [add_to_cart]
  split
  · exact h
  split
  · exact h
  split
  next opid oq pid qty hpi hpf =>
    split
    · exact h
    split
    · exact h
    next uid huid =>
      split
      · exact h
      next user huser =>
        split
        · exact h
        next product hprodeq =>
          split
          · exact h
          next hsale =>
            have hl1 : (get_or_create_cart db user.partner_id).2.lines = db.lines :=
              get_or_create_cart_snd_lines db user.partner_id
            have hdb : LinesInv db.lines := h
            have hinv1 : LinesInv (get_or_create_cart db user.partner_id).2.lines := by
              rw [hl1]; exact hdb
            rcases hex : List.filter (fun l => l.product_id == pid)
                (orderLinesOf (get_or_create_cart db user.partner_id).2
                  (get_or_create_cart db user.partner_id).1.id) with _ | ⟨l0, tail⟩
            · simp only [hex]
              have hno := @of_filters_empty OrderLine
                (get_or_create_cart db user.partner_id).2.lines
                (fun l => l.order_id == (get_or_create_cart db user.partner_id).1.id)
                (fun l => l.product_id == pid) hex
              have hinv2 : LinesInv ((get_or_create_cart db user.partner_id).2.lines ++
                  [{ id := (get_or_create_cart db user.partner_id).2.next_id,
                     order_id := (get_or_create_cart db user.partner_id).1.id,
                     product_id := pid, product_uom_qty := qty,
                     price_unit := product.list_price }]) := by
                refine LinesInv_append_new _ _ hinv1 ?_
                rintro l hl ⟨h1, h2⟩
                exact hno l hl ⟨beq_iff_eq.mpr h1, beq_iff_eq.mpr h2⟩
              split <;> exact hinv2
            · simp only [hex]
              have hinv2 : LinesInv ((get_or_create_cart db user.partner_id).2.lines.map
                  (fun l => if l.id == l0.id then
                    { l with product_uom_qty := l.product_uom_qty + qty } else l)) :=
                LinesInv_map_update _ _ _ hinv1
              split <;> exact hinv2
  next => exact h

theorem runAddSeq_cartInv (env : Env) (reqs : List (Session × AddPayload)) (db : DB)
    (h : CartInv db) : CartInv (runAddSeq env reqs db) := by
  induction reqs generalizing db with
  | nil => exact h
  | cons r rest ih => exact ih _ (add_to_cart_cartInv env r.1 r.2 db h)

theorem add_twice_single_line (price q1 q2 : Rat) (h1 : 0 < q1) (h2 : 0 < q2) :
    ((add_to_cart (cartEnv price) cartSess (addPayloadOf q2)
        (add_to_cart (cartEnv price) cartSess (addPayloadOf q1) cartDB).2).2).lines
      = [{ id := 101, order_id := 100, product_id := 1,
           product_uom_qty := q1 + q2, price_unit := price }] := by
  have h1' : ¬ (q1 ≤ 0) := not_le.mpr h1
  have h2' : ¬ (q2 ≤ 0) := not_le.mpr h2
  simp [add_to_cart, cartEnv, cartSess, cartDB, addPayloadOf, widget, authenticate_session,
        pyInt_jnum_one, pyTruthy_jnum_one, pyFloat_jnum, findUser, findProduct,
        get_or_create_cart, searchDraftCart, draftOrdersOf, pickLatest,
        orderLinesOf, amount_all, h1', h2']

/-! ## Claim theorems -/

/-- C1: after any sequence of `add_to_cart` calls a cart holds at most one
line per product (the invariant `CartInv` is preserved), and adding
quantity `q1` then `q2` of the same product to an empty cart leaves
exactly one line whose quantity is `q1 + q2` — the second add increments
the existing line instead of creating a second one. -/
theorem claim_cart_line_invariant :
    (∀ (env : Env) (reqs : List (Session × AddPayload)) (db : DB),
      CartInv db → CartInv (runAddSeq env reqs db))
    ∧ (∀ (price q1 q2 : Rat), 0 < q1 → 0 < q2 →
      ((add_to_cart (cartEnv price) cartSess (addPayloadOf q2)
          (add_to_cart (cartEnv price) cartSess (addPayloadOf q1) cartDB).2).2).lines
        = [{ id := 101, order_id := 100, product_id := 1,
             product_uom_qty := q1 + q2, price_unit := price }]) :=
  ⟨fun env reqs db h => runAddSeq_cartInv env reqs db h,
   fun price q1 q2 h1 h2 => add_twice_single_line price q1 q2 h1 h2⟩

/-- Witness for C1 at a concrete store: the invariant holds after one add,
and adding 2 then 3 of product 1 leaves the single line with quantity
`2 + 3`. -/
theorem claim_cart_line_invariant_witness :
    CartInv (runAddSeq (cartEnv 10) [(cartSess, addPayloadOf 2)] cartDB)
    ∧ ((add_to_cart (cartEnv 10) cartSess (addPayloadOf 3)
        (add_to_cart (cartEnv 10) cartSess (addPayloadOf 2) cartDB).2).2).lines
      = [{ id := 101, order_id := 100, product_id := 1,
           product_uom_qty := 2 + 3, price_unit := 10 }] :=
  ⟨claim_cart_line_invariant.1 (cartEnv 10) [(cartSess, addPayloadOf 2)] cartDB (by decide),
   claim_cart_line_invariant.2 10 2 3 (by decide) (by decide)⟩

/-- C2: cart resolution is a get-or-create: the resolved order belongs to
the partner and is a draft; when a draft exists the store is untouched and
the returned draft has maximal `write_date` among the partner's drafts;
when none exists exactly one draft is created; and a second sequential
call resolves to the same cart without creating a duplicate. -/
theorem claim_get_or_create_cart (db : DB) (p : Nat) :
    (get_or_create_cart db p).1.partner_id = p
    ∧ (get_or_create_cart db p).1.state = "draft"
    ∧ (match searchDraftCart db p with
       | some c =>
         get_or_create_cart db p = (c, db)
         ∧ ∀ o ∈ draftOrdersOf db p, o.write_date ≤ c.write_date
       | none =>
         (get_or_create_cart db p).2.orders = db.orders ++ [(get_or_create_cart db p).1]
         ∧ (get_or_create_cart db p).2.lines = db.lines)
    ∧ get_or_create_cart (get_or_create_cart db p).2 p
        = ((get_or_create_cart db p).1, (get_or_create_cart db p).2) := by
  cases hsc : searchDraftCart db p with
  | some c =>
    have hmem : c ∈ draftOrdersOf db p := pickLatest_mem hsc
    have hpred := (List.mem_filter.mp hmem).2
    simp only [Bool.and_eq_true, beq_iff_eq] at hpred
    refine ⟨?_, ?_, ?_, ?_⟩
    · simp [get_or_create_cart, hsc, hpred.1]
    · simp [get_or_create_cart, hsc, hpred.2]
    · simp only [hsc]
      exact ⟨by simp [get_or_create_cart, hsc], pickLatest_maximal hsc⟩
    · simp [get_or_create_cart, hsc]
  | none =>
    have hempty : draftOrdersOf db p = [] := (pickLatest_eq_none_iff _).mp hsc
    have hempty2 : List.filter (fun o => o.partner_id == p && o.state == "draft") db.orders
        = [] := hempty
    refine ⟨?_, ?_, ?_, ?_⟩
    · simp [get_or_create_cart, hsc]
    · simp [get_or_create_cart, hsc]
    · simp only [hsc]
      constructor <;> simp [get_or_create_cart, hsc]
    · have hsearch2 : searchDraftCart (get_or_create_cart db p).2 p
          = some (get_or_create_cart db p).1 := by
        simp [get_or_create_cart, hsc, searchDraftCart, draftOrdersOf,
              List.filter_append, hempty2, pickLatest]
      rw [get_or_create_cart, hsearch2]

/-- C3: without an authenticated, non-anonymous session both cart
operations return the authentication-required error for every payload and
leave the store unchanged. -/
theorem claim_cart_auth_required (env : Env) (sess : Session) (data : AddPayload) (db : DB)
    (h : authenticate_session env sess = false) :
    add_to_cart env sess data db = (.err "Authentication required", db)
    ∧ view_cart env sess db = (.err "Authentication required", db) := by
  constructor <;> simp [add_to_cart, view_cart, h]

/-- Witness for C3 with an unauthenticated session. -/
theorem claim_cart_auth_required_witness :
    add_to_cart (cartEnv 10) { uid := none } (addPayloadOf 2) cartDB
      = (.err "Authentication required", cartDB)
    ∧ view_cart (cartEnv 10) { uid := none } cartDB
      = (.err "Authentication required", cartDB) :=
  claim_cart_auth_required (cartEnv 10) { uid := none } (addPayloadOf 2) cartDB rfl

/-- C4: `view_cart` never writes the store (every branch returns it
unchanged), and for an authenticated customer with no draft order it
returns the success response with `cart = None`. -/
theorem claim_view_cart_never_creates :
    (∀ (env : Env) (sess : Session) (db : DB), (view_cart env sess db).2 = db)
    ∧ (∀ (env : Env) (sess : Session) (db : DB) (uid : Nat) (user : User),
        authenticate_session env sess = true → sess.uid = some uid →
        findUser db uid = some user → searchDraftCart db user.partner_id = none →
        (view_cart env sess db).1 = .okEmpty) := by
  constructor
  · intro env sess db
    unfold view_cart
    split
    · rfl
    · split
      · rfl
      · split
        · rfl
        · split <;> rfl
  · intro env sess db uid user hauth huid huser hcart
    simp [view_cart, hauth, huid, huser, hcart]

/-- Witness for C4: viewing the cart of customer 5 (no draft order in the
fixture store) succeeds with an empty cart and leaves the store as is. -/
theorem claim_view_cart_never_creates_witness :
    (view_cart (cartEnv 10) cartSess cartDB).2 = cartDB
    ∧ (view_cart (cartEnv 10) cartSess cartDB).1 = .okEmpty :=
  ⟨claim_view_cart_never_creates.1 (cartEnv 10) cartSess cartDB,
   claim_view_cart_never_creates.2 (cartEnv 10) cartSess cartDB 5
     { id := 5, name := "Alice", login := "a@b.com", email := "a@b.com",
       partner_id := 7, has_portal := true, has_internal := false, password := .jnull }
     (by decide) rfl (by decide) (by decide)⟩

/-- C5: when the added product has no existing line in the resolved cart,
the created line carries the requested quantity and a unit price equal to
the product's current price looked up at insertion time. -/
theorem claim_new_line_price (env : Env) (sess : Session) (data : AddPayload) (db : DB)
    (pid : Int) (q : Rat) (uid : Nat) (user : User) (product : Product)
    (hauth : authenticate_session env sess = true)
    (htr : pyTruthy (data.product_id.getD .jnull) = true)
    (hpi : pyInt (data.product_id.getD .jnull) = some pid)
    (hpf : pyFloat (data.quantity.getD (.jnum 1)) = some q)
    (hq : ¬ q ≤ 0)
    (huid : sess.uid = some uid)
    (huser : findUser db uid = some user)
    (hprod : findProduct env pid = some product)
    (hsale : (product.sale_ok && product.active) = true)
    (hnoline : List.filter (fun l => l.product_id == pid)
        (orderLinesOf (get_or_create_cart db user.partner_id).2
          (get_or_create_cart db user.partner_id).1.id) = []) :
    (add_to_cart env sess data db).2.lines =
      (get_or_create_cart db user.partner_id).2.lines ++
        [{ id := (get_or_create_cart db user.partner_id).2.next_id,
           order_id := (get_or_create_cart db user.partner_id).1.id,
           product_id := pid, product_uom_qty := q,
           price_unit := product.list_price }] := by
  simp only [add_to_cart, hauth, htr, hpi, hpf, huid, huser, hprod, hsale, hnoline]
  simp only [not_true, Bool.not_eq_true, if_false, hq, if_neg hq]
  split <;> rfl

/-- Witness for C5: adding 2 of product 1 to the empty fixture cart
creates the line with quantity 2 priced at the product's price 10. -/
theorem claim_new_line_price_witness :
    (add_to_cart (cartEnv 10) cartSess (addPayloadOf 2) cartDB).2.lines =
      (get_or_create_cart cartDB 7).2.lines ++
        [{ id := (get_or_create_cart cartDB 7).2.next_id,
           order_id := (get_or_create_cart cartDB 7).1.id,
           product_id := 1, product_uom_qty := 2, price_unit := 10 }] :=
  claim_new_line_price (cartEnv 10) cartSess (addPayloadOf 2) cartDB 1 2 5
    { id := 5, name := "Alice", login := "a@b.com", email := "a@b.com",
      partner_id := 7, has_portal := true, has_internal := false, password := .jnull }
    (widget 10) (by decide) (by decide) (by decide) rfl (by decide) rfl (by decide)
    (by decide) (by decide) (by decide)

/-- C6: whenever `list_products` succeeds, the returned `has_more` flag is
true exactly when `offset + limit < total_count`, and at the boundary
`offset = 0`, `limit = total_count` it is false. -/
theorem claim_has_more_flag (env : Env) (data : ProductsPayload)
    (ps : List ProductData) (total : Nat) (limit offset : Int) (hm : Bool)
    (h : list_products env data = .ok ps total limit offset hm) :
    (hm = true ↔ offset + limit < (total : Int))
    ∧ (offset = 0 → limit = total → hm = false) := by
  simp only [list_products] at h
  split at h
  · simp at h
  split at h
  · simp at h
  split at h
  case _ l0 o0 _ _ =>
    split at h
    · simp at h
    injection h with h1 h2 h3 h4 h5
    subst h2 h3 h4 h5
    refine ⟨by simp, ?_⟩
    intro h0 hl2
    rw [h0, hl2]
    simp
  case _ => simp at h

/-- Witness for C6: a catalog of one product with the default page size
reports `has_more = false`. -/
theorem claim_has_more_flag_witness :
    (false = true ↔ (0 : Int) + 20 < ((1 : Nat) : Int))
    ∧ ((0 : Int) = 0 → (20 : Int) = ((1 : Nat) : Int) → false = false) :=
  claim_has_more_flag (cartEnv 10)
    { limit := none, offset := none, category_id := none, search := none }
    [formatProduct (cartEnv 10) (widget 10)] 1 20 0 false (by decide)

/-- C7: a registration that succeeds makes an identical repeat fail with
the duplicate-email error and leaves the store unchanged; and when the
normalized email matches an existing user login (with no matching
customer record) registration fails with the duplicate-user error. -/
theorem claim_create_duplicate :
    (∀ (data : CreatePayload) (db : DB) (es ns ph : String),
      pyTruthy (data.name.getD .jnull) = true →
      pyTruthy (data.email.getD .jnull) = true →
      pyTruthy (data.password.getD .jnull) = true →
      pyStr (data.email.getD .jnull) = some es →
      pyStr (data.name.getD .jnull) = some ns →
      pyStr (data.phone.getD (.jstr "")) = some ph →
      ¬(pyLower (pyStrip es) = "" ∨ ¬ (pyLower (pyStrip es)).data.contains '@') →
      db.partners.find? (fun p => p.email == pyLower (pyStrip es) && !p.is_company) = none →
      db.users.find? (fun u => u.login == pyLower (pyStrip es)) = none →
      (create_customer data db).1.status = "success"
      ∧ create_customer data (create_customer data db).2
          = (.err "Email already exists", (create_customer data db).2))
    ∧ (∀ (data : CreatePayload) (db : DB) (es : String),
      pyTruthy (data.name.getD .jnull) = true →
      pyTruthy (data.email.getD .jnull) = true →
      pyTruthy (data.password.getD .jnull) = true →
      pyStr (data.email.getD .jnull) = some es →
      ¬(pyLower (pyStrip es) = "" ∨ ¬ (pyLower (pyStrip es)).data.contains '@') →
      db.partners.find? (fun p => p.email == pyLower (pyStrip es) && !p.is_company) = none →
      (db.users.find? (fun u => u.login == pyLower (pyStrip es))).isSome = true →
      create_customer data db = (.err "User with this email already exists", db)) := by
  constructor
  · intro data db es ns ph hn he hp hes hns hph hfmt hpart husers
    have hrun : create_customer data db =
        (.ok db.next_id (db.next_id + 1) (pyLower (pyStrip es)),
          { partners := db.partners ++
              [{ id := db.next_id, name := pyStrip ns, email := pyLower (pyStrip es),
                 phone := pyStrip ph, is_company := false }],
            users := db.users ++
              [{ id := db.next_id + 1, name := pyStrip ns, login := pyLower (pyStrip es),
                 email := pyLower (pyStrip es), partner_id := db.next_id,
                 has_portal := true, has_internal := false,
                 password := data.password.getD .jnull }],
            orders := db.orders, lines := db.lines,
            next_id := db.next_id + 1 + 1, now := db.now + 1 + 1 }) := by
      simp only [create_customer, hn, he, hp, hes, hns, hph]
      rw [if_neg hfmt]
      simp [hpart, husers]
    refine ⟨by rw [hrun]; rfl, ?_⟩
    rw [hrun]
    simp only [create_customer, hn, he, hp, hes]
    rw [if_neg hfmt]
    have hfound : (List.find?
        (fun p => p.email == pyLower (pyStrip es) && !p.is_company)
        (db.partners ++
          [{ id := db.next_id, name := pyStrip ns, email := pyLower (pyStrip es),
             phone := pyStrip ph, is_company := false }])).isSome = true := by
      rw [List.find?_isSome]
      refine ⟨_, List.mem_append_right _ (List.mem_singleton_self _), ?_⟩
      simp
    simp [hfound]
  · intro data db es hn he hp hes hfmt hpart husers
    simp only [create_customer, hn, he, hp, hes]
    rw [if_neg hfmt]
    simp [hpart, husers]

/-- Witness for C7: registering `Bob@C.com` against the empty store
succeeds and repeating it fails with the duplicate error; against a store
holding only a user account with that login it fails with the
duplicate-user error. -/
theorem claim_create_duplicate_witness :
    ((create_customer regPayload emptyDB).1.status = "success"
      ∧ create_customer regPayload (create_customer regPayload emptyDB).2
          = (.err "Email already exists", (create_customer regPayload emptyDB).2))
    ∧ create_customer regPayload soloUserDB
        = (.err "User with this email already exists", soloUserDB) :=
  ⟨claim_create_duplicate.1 regPayload emptyDB "Bob@C.com" "Bob" "" (by decide) (by decide)
      (by decide) rfl rfl rfl (by decide) rfl rfl,
   claim_create_duplicate.2 regPayload soloUserDB "Bob@C.com" (by decide) (by decide)
      (by decide) rfl (by decide) rfl (by decide)⟩

/-- C8: an authenticator that raises and one that returns a negative
result produce identical login responses, and in either case (fields
present) the response is the uniform invalid-credentials error. -/
theorem claim_login_uniform :
    (∀ (env : Env) (data : LoginPayload) (db : DB),
      customer_login { env with authenticate := fun _ _ => .exn } data db
        = customer_login { env with authenticate := fun _ _ => .failed } data db)
    ∧ (∀ (env : Env) (data : LoginPayload) (db : DB) (es : String),
        pyTruthy (data.email.getD .jnull) = true →
        pyTruthy (data.password.getD .jnull) = true →
        pyStr (data.email.getD .jnull) = some es →
        (env.authenticate (pyLower (pyStrip es)) (data.password.getD .jnull) = .exn ∨
         env.authenticate (pyLower (pyStrip es)) (data.password.getD .jnull) = .failed) →
        customer_login env data db = .err "Invalid email or password") := by
  constructor
  · intro env data db
    simp only [customer_login]
  · intro env data db es he hp hes hout
    rcases hout with h | h <;> simp [customer_login, he, hp, hes, h]

/-- Witness for C8 at a concrete payload: the two failing authenticators
agree, and the fixture authenticator (a negative result) yields the
invalid-credentials error. -/
theorem claim_login_uniform_witness :
    customer_login { (cartEnv 10) with authenticate := fun _ _ => .exn }
        { email := some (.jstr "A@B.com"), password := some (.jstr "pw") } cartDB
      = customer_login { (cartEnv 10) with authenticate := fun _ _ => .failed }
        { email := some (.jstr "A@B.com"), password := some (.jstr "pw") } cartDB
    ∧ customer_login (cartEnv 10)
        { email := some (.jstr "A@B.com"), password := some (.jstr "pw") } cartDB
      = .err "Invalid email or password" :=
  ⟨claim_login_uniform.1 (cartEnv 10)
      { email := some (.jstr "A@B.com"), password := some (.jstr "pw") } cartDB,
   claim_login_uniform.2 (cartEnv 10)
      { email := some (.jstr "A@B.com"), password := some (.jstr "pw") } cartDB
      "A@B.com" (by decide) (by decide) rfl (Or.inr rfl)⟩

/-- C9: an `add_to_cart` payload without a quantity behaves exactly as if
quantity 1 had been supplied. -/
theorem claim_quantity_default (env : Env) (sess : Session) (data : AddPayload) (db : DB)
    (h : data.quantity = none) :
    add_to_cart env sess { data with quantity := some (.jnum 1) } db
      = add_to_cart env sess data db := by
  simp [add_to_cart, h]

/-- Witness for C9 at a concrete payload with no quantity field. -/
theorem claim_quantity_default_witness :
    add_to_cart (cartEnv 10) cartSess
        { product_id := some (.jnum 1), quantity := some (.jnum 1) } cartDB
      = add_to_cart (cartEnv 10) cartSess
        { product_id := some (.jnum 1), quantity := none } cartDB :=
  claim_quantity_default (cartEnv 10) cartSess
    { product_id := some (.jnum 1), quantity := none } cartDB rfl

/-- C10: a required field supplied as the empty string is treated as
missing: registration fails with the message naming that field, login
fails with the missing-field error for every environment (so no
authenticator is consulted), and the store is returned unchanged. -/
theorem claim_empty_string_missing :
    (∀ (data : CreatePayload) (db : DB), data.name = some (.jstr "") →
      create_customer data db = (.err "Missing required field: name", db))
    ∧ (∀ (data : CreatePayload) (db : DB),
        pyTruthy (data.name.getD .jnull) = true → data.email = some (.jstr "") →
        create_customer data db = (.err "Missing required field: email", db))
    ∧ (∀ (data : CreatePayload) (db : DB),
        pyTruthy (data.name.getD .jnull) = true →
        pyTruthy (data.email.getD .jnull) = true → data.password = some (.jstr "") →
        create_customer data db = (.err "Missing required field: password", db))
    ∧ (∀ (env : Env) (data : LoginPayload) (db : DB),
        data.email = some (.jstr "") ∨ data.password = some (.jstr "") →
        customer_login env data db = .err "Email and password are required") := by
  refine ⟨?_, ?_, ?_, ?_⟩
  · intro data db h
    simp [create_customer, h, pyTruthy_jstr_empty]
  · intro data db hn h
    simp [create_customer, hn, h, pyTruthy_jstr_empty]
  · intro data db hn he h
    simp [create_customer, hn, he, h, pyTruthy_jstr_empty]
  · intro env data db h
    rcases h with h | h <;> simp [customer_login, h, pyTruthy_jstr_empty]

/-- Witness for C10 at concrete payloads with empty-string fields. -/
theorem claim_empty_string_missing_witness :
    create_customer { name := some (.jstr ""), email := some (.jstr "x@y.z"),
                      phone := none, password := some (.jstr "pw") } emptyDB
      = (.err "Missing required field: name", emptyDB)
    ∧ create_customer { name := some (.jstr "Bob"), email := some (.jstr ""),
                        phone := none, password := some (.jstr "pw") } emptyDB
      = (.err "Missing required field: email", emptyDB)
    ∧ create_customer { name := some (.jstr "Bob"), email := some (.jstr "b@c.d"),
                        phone := none, password := some (.jstr "") } emptyDB
      = (.err "Missing required field: password", emptyDB)
    ∧ customer_login (cartEnv 10)
        { email := some (.jstr ""), password := some (.jstr "pw") } cartDB
      = .err "Email and password are required" :=
  ⟨claim_empty_string_missing.1 _ emptyDB rfl,
   claim_empty_string_missing.2.1 _ emptyDB (by decide) rfl,
   claim_empty_string_missing.2.2.1 _ emptyDB (by decide) (by decide) rfl,
   claim_empty_string_missing.2.2.2 (cartEnv 10) _ cartDB (Or.inl rfl)⟩

end CustomerAPI
